import Mathlib

/-!
Verification of the schema-inference and table-building core of
`pyspark/sql/connect/session.py` (Spark Connect `SparkSession`):
`createDataFrame` and `_inferSchemaFromList`.

The embedding models:
  * Python values appearing in rows as a closed atomic set (`PyVal`);
  * the four row shapes dispatched on by `createDataFrame`
    (`Row`-like named records, `dict`s, sequences, scalars) as `Record`;
  * pandas frames, numpy arrays, pyarrow tables as explicit list-based data;
  * each error raised by the source as a constructor of `CdfError`.

Helpers `_infer_schema`, `_merge_type`, `_has_nulltype` live in
`pyspark.sql.types`, which is not part of the provided sources; those
definitions are modelled from the specification (see their doc comments).
All other definitions are translated directly from `session.py`.
-/

deriving instance DecidableEq for Except

namespace SparkConnect

/-- Atomic Python values that can appear inside a row. -/
inductive PyVal where
  | none : PyVal
  | int : Int → PyVal
  | str : String → PyVal
  | bool : Bool → PyVal
deriving DecidableEq, Repr

/-- Atomic Spark SQL data types (the type tags relevant to this core). -/
inductive DataType where
  | nullT | longT | doubleT | stringT | boolT
deriving DecidableEq, Repr

/-- `StructField`: name, data type and nullability. -/
structure StructField where
  name : String
  dataType : DataType
  nullable : Bool
deriving DecidableEq, Repr

/-- `StructType` as in pyspark: it maintains both the field list and a
separate list of names (`self.fields` and `self.names`). -/
structure StructType where
  fields : List StructField
  names : List String
deriving DecidableEq, Repr

/-- The typed schema objects accepted by `createDataFrame`
(`AtomicType` or `StructType`, i.e. the `_schema` variable). -/
inductive SchemaTy where
  | atomic : DataType → SchemaTy
  | struct : StructType → SchemaTy
deriving DecidableEq, Repr

/-- The `schema` argument of `createDataFrame`: absent, a typed schema,
a schema string, or a list of column names. -/
inductive SchemaArg where
  | noSchema : SchemaArg
  | atomic : DataType → SchemaArg
  | struct : StructType → SchemaArg
  | schemaStr : String → SchemaArg
  | cols : List String → SchemaArg
deriving DecidableEq, Repr

/-- One element of an iterable passed to `createDataFrame`: a pyspark
`Row` (named-field record), a `dict` (association list in insertion
order), a `list`/`tuple`, or a bare scalar. -/
inductive Record where
  | row : List (String × PyVal) → Record
  | dict : List (String × PyVal) → Record
  | seq : List PyVal → Record
  | scalar : PyVal → Record
deriving DecidableEq, Repr

/-- A numpy `ndarray` of integers: its shape plus row-major cells. -/
structure NpArray where
  shape : List Nat
  cells : List Int
deriving DecidableEq, Repr

/-- pandas column dtypes distinguished by the source: nanosecond
timestamps (`is_datetime64_dtype`), tz-aware nanosecond timestamps
(`is_datetime64tz_dtype`), and everything else. -/
inductive PdDType where
  | tsNs | tsNsTz | other
deriving DecidableEq, Repr

/-- A pandas column: name, dtype tag, and cell values (epoch integers
for timestamp columns, plain integers otherwise). -/
structure PdCol where
  name : String
  dtype : PdDType
  vals : List Int
deriving DecidableEq, Repr

/-- A pandas DataFrame as an ordered list of typed columns. -/
abbrev PdFrame := List PdCol

/-- Arrow column types distinguished by the source's timestamp rewrite. -/
inductive PaType where
  | plain | tsNs | tsNsTz | tsUs | tsUsTz
deriving DecidableEq, Repr

/-- One column of a pyarrow table. -/
structure PaCol where
  name : String
  typ : PaType
  vals : List PyVal
deriving DecidableEq, Repr

/-- A pyarrow table (`_table` in the source). -/
structure PaTable where
  cols : List PaCol
deriving DecidableEq, Repr

/-- Every failure `createDataFrame` / `_inferSchemaFromList` can raise. -/
inductive CdfError where
  /-- `ValueError("can not infer schema from empty dataset")` -/
  | emptyDataset
  /-- `ValueError("Some of types cannot be determined after inferring")` -/
  | indeterminate
  /-- `TypeError` raised by `_merge_type` on incompatible types -/
  | mergeConflict
  /-- `ValueError("NumPy array input should be of 1 or 2 dimensions.")` -/
  | invalidRank
  /-- `ValueError("Length mismatch: Expected axis has {a} elements, new values have {b} elements")` -/
  | lengthMismatch : Nat → Nat → CdfError
  /-- Python `IndexError` (out-of-range list assignment) -/
  | indexError
  /-- Python `TypeError: len() of unsized object` (0-dim numpy array) -/
  | lenOfUnsized
deriving DecidableEq, Repr

/-- Which schema the returned `DataFrame` was given (the five result
branches at the end of `createDataFrame`). -/
inductive ResolvedSchema where
  | explicitTy : SchemaTy → ResolvedSchema
  | schemaStr : String → ResolvedSchema
  | inferred : StructType → ResolvedSchema
  | renamedCols : List String → ResolvedSchema
  | plain : ResolvedSchema
deriving DecidableEq, Repr

/-- The observable outcome of a successful `createDataFrame` call: the
local-relation table (`none` on the empty-input short-circuit, where the
source passes `table=None`) plus the schema attached to the plan. -/
structure DFResult where
  table : Option PaTable
  resolved : ResolvedSchema
deriving DecidableEq, Repr

/-- Number of rows of the resulting local relation (0 when no table). -/
def DFResult.numRows (r : DFResult) : Nat :=
  match r.table with
  | Option.none => 0
  | Option.some t =>
    match t.cols with
    | [] => 0
    | c :: _ => c.vals.length

/-- The three kinds of `data` accepted by `createDataFrame`. -/
inductive Data where
  | dataframe : PdFrame → Data
  | ndarray : NpArray → Data
  | records : List Record → Data
deriving DecidableEq, Repr

/-- Positional placeholder names `"_1" .. "_n"`. -/
def defaultNames (n : Nat) : List String :=
  (List.range n).map (fun i => "_" ++ toString (i + 1))

/-- Modelled from the spec: the external scalar type-inference primitive
`inferScalarType(value) -> AtomicType` (part of `pyspark.sql.types`,
absent from the sources), restricted to the closed value set `PyVal`. -/
def inferScalarType : PyVal → DataType
  | .none => .nullT
  | .int _ => .longT
  | .str _ => .stringT
  | .bool _ => .boolT

/-- Modelled from the spec: `_infer_schema(row, names, ...)` from
`pyspark.sql.types` (absent from the sources). Per the spec's Per-Row
Type Inferrer: a mapping or named-field record gives one field per key in
the record's own order (the lexicographic sort is applied by the caller
in `session.py`); a sequence uses the explicit names when length-matched,
else positional placeholders; a scalar gives a single field named
`"value"` unless a single explicit name is supplied. Every field starts
nullable. -/
def inferSchema (r : Record) (names : Option (List String)) : StructType :=
  match r with
  | .row items =>
    let fs := items.map (fun kv => StructField.mk kv.1 (inferScalarType kv.2) true)
    ⟨fs, fs.map (·.name)⟩
  | .dict items =>
    let fs := items.map (fun kv => StructField.mk kv.1 (inferScalarType kv.2) true)
    ⟨fs, fs.map (·.name)⟩
  | .seq xs =>
    let ns :=
      match names with
      | Option.some cs => if cs.length = xs.length then cs else defaultNames xs.length
      | Option.none => defaultNames xs.length
    let fs := (ns.zip xs).map (fun kv => StructField.mk kv.1 (inferScalarType kv.2) true)
    ⟨fs, fs.map (·.name)⟩
  | .scalar v =>
    let n :=
      match names with
      | Option.some [c] => c
      | _ => "value"
    ⟨[StructField.mk n (inferScalarType v) true], [n]⟩

/-- Modelled from the spec: unification of two atomic types (the leaf
case of `_merge_type`). Unifying a type with itself returns it; null
unifies with anything, returning the other type; integer and
floating-point unify to floating-point; anything else is a conflict. -/
def mergeDataType (a b : DataType) : Except CdfError DataType :=
  match a, b with
  | .nullT, t => .ok t
  | t, .nullT => .ok t
  | a, b =>
    if a = b then .ok a
    else if (a = .longT ∧ b = .doubleT) ∨ (a = .doubleT ∧ b = .longT) then .ok .doubleT
    else .error .mergeConflict

/-- Modelled from the spec: the field list produced by `_merge_type` on
structured types (from `pyspark.sql.types`, absent from the sources).
Fields unify by matching name; a field present on only one side is kept
and marked nullable; field order follows first-seen order (all of `a`'s
fields, then `b`'s new ones); unifying with a null-typed field forces
nullability. -/
def mergeFields (a b : StructType) : Except CdfError (List StructField) := do
  let merged ← a.fields.mapM (fun fa =>
    match b.fields.find? (fun fb => fb.name = fa.name) with
    | Option.some fb => do
      let t ← mergeDataType fa.dataType fb.dataType
      pure (StructField.mk fa.name t
        (fa.nullable || fb.nullable ||
          decide (fa.dataType = .nullT) || decide (fb.dataType = .nullT)))
    | Option.none => pure (StructField.mk fa.name fa.dataType true))
  let extra := (b.fields.filter
      (fun fb => (a.fields.find? (fun fa => fa.name = fb.name)).isNone)).map
    (fun fb => StructField.mk fb.name fb.dataType true)
  pure (merged ++ extra)

/-- Modelled from the spec: `_merge_type` on structured types — the
merged field list packaged as a `StructType` with its names kept in
lock-step. -/
def mergeType (a b : StructType) : Except CdfError StructType :=
  match mergeFields a b with
  | .error e => .error e
  | .ok fields => .ok ⟨fields, fields.map (·.name)⟩

/-- Modelled from the spec: `_has_nulltype` (from `pyspark.sql.types`,
absent from the sources) — does some field still have an unresolved
null type. -/
def hasNulltype (s : StructType) : Bool :=
  s.fields.any (fun f => decide (f.dataType = .nullT))

/-- The pairwise fold of per-row inferred schemas:
`reduce(_merge_type, (_infer_schema(row, names, ...) for row in data))`. -/
def mergedSchemaOf (data : List Record) (names : Option (List String)) :
    Except CdfError StructType :=
  match data with
  | [] => .error .emptyDataset
  | r :: rest =>
    rest.foldl (fun acc row => acc.bind (fun s => mergeType s (inferSchema row names)))
      (.ok (inferSchema r names))

/-- `SparkSession._inferSchemaFromList`: reject an empty list, fold all
per-row schemas through `_merge_type`, then — only once, at the end —
fail if the merged schema still contains a null-typed field. -/
def inferSchemaFromList (data : List Record) (names : Option (List String)) :
    Except CdfError StructType :=
  match data with
  | [] => .error .emptyDataset
  | _ :: _ =>
    match mergedSchemaOf data names with
    | .error e => .error e
    | .ok schema =>
      if hasNulltype schema then .error .indeterminate else .ok schema

/-- `dict(sorted(d.items()))` applied to a mapping row (source line
`_data = [dict(sorted(d.items()))  for d in _data]`). Python's `sorted`
on key/value tuples orders by key first; dict keys are unique, so the
value components never get compared. Non-mapping rows are returned
unchanged (on such rows the source would raise `AttributeError`;
that point is unreachable for shape-homogeneous input). -/
def sortRecord : Record → Record
  | .dict items => .dict (items.insertionSort (fun a b => a.1 ≤ b.1))
  | r => r

/-- `row.asDict(recursive=True)` / the dict itself, as fed to
`pa.Table.from_pylist`. Sequence or scalar rows reaching this point
would raise in the source (shape-heterogeneous input); modelled as `[]`. -/
def Record.itemsOf : Record → List (String × PyVal)
  | .row items => items
  | .dict items => items
  | _ => []

/-- `list(item)` for a sequence row (others would raise in the source). -/
def Record.seqValsOf : Record → List PyVal
  | .seq xs => xs
  | _ => []

/-- The scalar payload of a scalar row. -/
def Record.scalarValOf : Record → PyVal
  | .scalar v => v
  | _ => .none

/-- `pa.Table.from_pylist(rows)` without an explicit schema: column
names are the keys of the first row, in order; each column collects
`row.get(name)` over all rows, missing keys becoming null. Rows are
association lists standing for Python dicts (keys unique within a row). -/
def from_pylist (rows : List (List (String × PyVal))) : PaTable :=
  match rows with
  | [] => ⟨[]⟩
  | r0 :: _ =>
    ⟨r0.map (fun kv =>
      PaCol.mk kv.1 .plain
        (rows.map (fun r => (List.lookup kv.1 r).getD PyVal.none)))⟩

/-- Is some column of the frame a (possibly tz-aware) nanosecond
timestamp column (`has_timestamp_data` in the source)? -/
def hasTimestampData (df : PdFrame) : Bool :=
  df.any (fun c => decide (c.dtype = .tsNs) || decide (c.dtype = .tsNsTz))

/-- Arrow type produced by `pa.Table.from_pandas` for an untouched
pandas column. -/
def paTypeOfDType : PdDType → PaType
  | .tsNs => .tsNs
  | .tsNsTz => .tsNsTz
  | .other => .plain

/-- `pa.Table.from_pandas(data)` with no dtype rewriting. -/
def fromPandasTable (df : PdFrame) : PaTable :=
  ⟨df.map (fun c => PaCol.mk c.name (paTypeOfDType c.dtype) (c.vals.map PyVal.int))⟩

/-- The per-column rewrite applied when the frame holds timestamp data:
nanosecond (and tz-aware nanosecond) columns are truncated to
microseconds (`astype("datetime64[us]")`, floor division of the epoch
value) and their arrow field type replaced by a microsecond timestamp;
every other column passes through as `from_pandas` would emit it. -/
def convertPdCol (c : PdCol) : PaCol :=
  match c.dtype with
  | .tsNs => PaCol.mk c.name .tsUs (c.vals.map (fun v => PyVal.int (Int.fdiv v 1000)))
  | .tsNsTz => PaCol.mk c.name .tsUsTz (c.vals.map (fun v => PyVal.int (Int.fdiv v 1000)))
  | .other => PaCol.mk c.name .plain (c.vals.map PyVal.int)

/-- The pandas branch of `createDataFrame`: if any column holds
timestamp data, copy the frame and rewrite exactly the timestamp
columns; otherwise hand the frame to `pa.Table.from_pandas` untouched. -/
def pandasBranch (df : PdFrame) : PaTable :=
  if hasTimestampData df then ⟨df.map convertPdCol⟩ else fromPandasTable df

/-- Column `i` of a rank-2 numpy array (`data[::, i]`). -/
def npColumn (a : NpArray) (w i : Nat) : List PyVal :=
  (List.range (a.shape.headD 0)).map
    (fun r => PyVal.int (a.cells.getD (r * w + i) 0))

/-- The numpy branch of `createDataFrame` (rank check, default column
names, per-rank length validation, `pa.Table.from_arrays`). Returns the
built table together with the resolved `_cols`. -/
def numpyTable (a : NpArray) (cols0 : Option (List String)) :
    Except CdfError (PaTable × List String) :=
  if a.shape.length ≠ 1 ∧ a.shape.length ≠ 2 then .error .invalidRank
  else
    let cols :=
      match cols0 with
      | Option.some cs => cs
      | Option.none =>
        if a.shape.length = 1 ∨ a.shape.getD 1 0 = 1 then ["value"]
        else defaultNames (a.shape.getD 1 0)
    if a.shape.length = 1 then
      if 1 ≠ cols.length then .error (.lengthMismatch 1 cols.length)
      else .ok (⟨cols.map (fun c => PaCol.mk c .plain (a.cells.map PyVal.int))⟩, cols)
    else
      let w := a.shape.getD 1 0
      if w ≠ cols.length then .error (.lengthMismatch w cols.length)
      else .ok (⟨cols.enum.map (fun p => PaCol.mk p.2 .plain (npColumn a w p.1))⟩, cols)

/-- The `len(_schema.fields) != num_cols` validation (only applies when
an explicit `StructType` was supplied). -/
def structLenErr (sch : Option SchemaTy) (numCols : Nat) : Option CdfError :=
  match sch with
  | Option.some (.struct s) =>
    if s.fields.length ≠ numCols then
      Option.some (.lengthMismatch numCols s.fields.length)
    else Option.none
  | _ => Option.none

/-- The `len(_cols) != num_cols` validation. -/
def colsLenErr (cols : Option (List String)) (numCols : Nat) : Option CdfError :=
  match cols with
  | Option.some cs =>
    if cs.length ≠ numCols then Option.some (.lengthMismatch numCols cs.length)
    else Option.none
  | Option.none => Option.none

/-- The final result dispatch of `createDataFrame`: explicit typed
schema first, then schema string, then inferred schema, then `toDF` over
a non-empty column-name list, else a bare local relation. -/
def pickResolved (sch : Option SchemaTy) (sstr : Option String)
    (inferred : Option StructType) (cols : Option (List String)) : ResolvedSchema :=
  match sch with
  | Option.some ty => .explicitTy ty
  | Option.none =>
    match sstr with
    | Option.some s => .schemaStr s
    | Option.none =>
      match inferred with
      | Option.some s => .inferred s
      | Option.none =>
        match cols with
        | Option.some cs => if cs.length > 0 then .renamedCols cs else .plain
        | Option.none => .plain

/-- Column-count validation plus result selection (source lines
`# Validate number of columns` to the end of `createDataFrame`). -/
def finish (t : PaTable) (inferred : Option StructType) (sch : Option SchemaTy)
    (sstr : Option String) (cols : Option (List String)) : Except CdfError DFResult :=
  match structLenErr sch t.cols.length with
  | Option.some e => .error e
  | Option.none =>
    match colsLenErr cols t.cols.length with
    | Option.some e => .error e
    | Option.none => .ok ⟨Option.some t, pickResolved sch sstr inferred cols⟩

/-- The rename loop
`for i, name in enumerate(_cols): fields[i].name = name; names[i] = name`
run over an inferred schema; an index beyond either list raises
`IndexError` in the source. -/
def renameGo (s : StructType) (i : Nat) (cols : List String) :
    Except CdfError StructType :=
  match cols with
  | [] => .ok s
  | n :: rest =>
    if h : i < s.fields.length ∧ i < s.names.length then
      renameGo
        ⟨s.fields.set i (StructField.mk n (s.fields.get ⟨i, h.1⟩).dataType
          (s.fields.get ⟨i, h.1⟩).nullable),
         s.names.set i n⟩ (i + 1) rest
    else .error .indexError

/-- Is the first row a pyspark `Row` or a `dict`
(`isinstance(_data[0], (Row, dict))`)? -/
def Record.isRowOrDict : Record → Bool
  | .row _ => true
  | .dict _ => true
  | _ => false

/-- Is the row a `dict`? -/
def Record.isDict : Record → Bool
  | .dict _ => true
  | _ => false

/-- Resolution of `_cols` when it was not supplied (source block
`if _cols is None: ...`), depending on the first row's shape, the
explicit typed schema and the inferred schema. -/
def resolveCols (r0 : Record) (sch : Option SchemaTy) (inferred : Option StructType)
    (cols0 : Option (List String)) : List String :=
  match cols0 with
  | Option.some cs => cs
  | Option.none =>
    if sch.isNone && inferred.isNone then
      match r0 with
      | .seq xs => defaultNames xs.length
      | _ => ["_1"]
    else
      match sch with
      | Option.some (.struct s) => s.names
      | _ =>
        match inferred with
        | Option.some i => i.names
        | Option.none => ["value"]

/-- Table construction for the iterable branch, dispatching on the first
row's shape exactly as the source does: `Row`s via `asDict`, dicts
directly, sequences and scalars via `dict(zip(_cols, ...))`. -/
def buildTable (r0 : Record) (rows : List Record) (cols1 : List String) : PaTable :=
  match r0 with
  | .row _ => from_pylist (rows.map Record.itemsOf)
  | .dict _ => from_pylist (rows.map Record.itemsOf)
  | .seq _ => from_pylist (rows.map (fun r => cols1.zip r.seqValsOf))
  | .scalar _ => from_pylist (rows.map (fun r => cols1.zip [r.scalarValOf]))

/-- Everything after `_cols`/`_inferred_schema` are settled in the
iterable branch: resolve `_cols`, build the table, validate and pick the
result. -/
def buildRecordsTable (rows : List Record) (sch : Option SchemaTy)
    (sstr : Option String) (cols0 : Option (List String))
    (inferred : Option StructType) : Except CdfError DFResult :=
  match rows.head? with
  | Option.none => .error .indexError
  | Option.some r0 =>
    let cols1 := resolveCols r0 sch inferred cols0
    finish (buildTable r0 rows cols1) inferred sch sstr (Option.some cols1)

/-- The inference path of the iterable branch, taken when no typed
schema was given and the first row is a `Row` or `dict`: infer the
schema from the (possibly key-sorted) rows, apply the positional rename
when explicit column names exist, then build the table from those same
rows. -/
def sortedRecordsPath (rows1 : List Record) (sch : Option SchemaTy)
    (sstr : Option String) (cols0 : Option (List String)) : Except CdfError DFResult :=
  match inferSchemaFromList rows1 cols0 with
  | .error e => .error e
  | .ok isch =>
    match (match cols0 with
           | Option.some cs => renameGo isch 0 cs
           | Option.none => .ok isch) with
    | .error e => .error e
    | .ok isch2 => buildRecordsTable rows1 sch sstr cols0 (Option.some isch2)

/-- The iterable branch of `createDataFrame` (`_data = list(data)` …):
if no typed schema was given and the first row is a `Row`/`dict`, sort
every row's keys when the first row is a dict and run schema inference;
otherwise go straight to table construction. -/
def recordsBranch (rows : List Record) (sch : Option SchemaTy)
    (sstr : Option String) (cols0 : Option (List String)) : Except CdfError DFResult :=
  match rows.head? with
  | Option.none => .error .indexError
  | Option.some r0 =>
    if sch.isNone && r0.isRowOrDict then
      sortedRecordsPath (if r0.isDict then rows.map sortRecord else rows) sch sstr cols0
    else
      buildRecordsTable rows sch sstr cols0 Option.none

/-- The `_schema` variable: set iff the argument is a typed schema. -/
def argSchema : SchemaArg → Option SchemaTy
  | .atomic t => Option.some (.atomic t)
  | .struct s => Option.some (.struct s)
  | _ => Option.none

/-- The `_schema_str` variable: set iff the argument is a schema string. -/
def argStr : SchemaArg → Option String
  | .schemaStr s => Option.some s
  | _ => Option.none

/-- The `_cols` variable as initialised from the argument: set iff the
argument is a list of column names. -/
def argCols : SchemaArg → Option (List String)
  | .cols cs => Option.some cs
  | _ => Option.none

/-- `len(data)` for the `isinstance(data, Sized)` check. A 0-dim numpy
array is `Sized` but `len()` raises `TypeError: len() of unsized
object`; a pandas frame's length is its row count; a list's its length. -/
def sizedLen : Data → Except CdfError Nat
  | .dataframe df =>
    .ok (match df with
         | [] => 0
         | c :: _ => c.vals.length)
  | .ndarray a =>
    match a.shape with
    | [] => .error .lenOfUnsized
    | n :: _ => .ok n
  | .records rows => .ok rows.length

/-- The empty-input short-circuit: with a typed schema or a schema
string, emit a plan with `table=None` typed by that schema; otherwise
fail. -/
def emptyPath (sch : Option SchemaTy) (sstr : Option String) : Except CdfError DFResult :=
  match sch with
  | Option.some ty => .ok ⟨Option.none, .explicitTy ty⟩
  | Option.none =>
    match sstr with
    | Option.some s => .ok ⟨Option.none, .schemaStr s⟩
    | Option.none => .error .emptyDataset

/-- Dispatch over the three input categories once the input is known to
be non-empty. -/
def buildNonEmpty (data : Data) (sch : Option SchemaTy) (sstr : Option String)
    (cols0 : Option (List String)) : Except CdfError DFResult :=
  match data with
  | .dataframe df => finish (pandasBranch df) Option.none sch sstr cols0
  | .ndarray a =>
    match numpyTable a cols0 with
    | .error e => .error e
    | .ok (t, cols1) => finish t Option.none sch sstr (Option.some cols1)
  | .records rows => recordsBranch rows sch sstr cols0

/-- `SparkSession.createDataFrame(data, schema)` of the Spark Connect
session, as an explicit function from the input and the schema argument
to either a raised error or the observable result. -/
def createDataFrame (data : Data) (schema : SchemaArg) : Except CdfError DFResult :=
  match sizedLen data with
  | .error e => .error e
  | .ok n =>
    if n = 0 then emptyPath (argSchema schema) (argStr schema)
    else buildNonEmpty data (argSchema schema) (argStr schema) (argCols schema)


/-- Does the `schema` argument carry an explicit schema in the sense of
the empty-input short-circuit: a typed schema (`AtomicType`/`StructType`)
or a schema string? A bare column-name list does not count. -/
def hasExplicitSchema : SchemaArg → Bool
  | .atomic _ => true
  | .struct _ => true
  | .schemaStr _ => true
  | _ => false

/-- The schema attached to the zero-row plan on the empty-input path. -/
def emptyResolved : SchemaArg → ResolvedSchema
  | .atomic t => .explicitTy (.atomic t)
  | .struct s => .explicitTy (.struct s)
  | .schemaStr s => .schemaStr s
  | _ => .plain

/-- C1: an empty input collection yields a zero-row relation typed by
the supplied schema exactly when an explicit schema (typed or string)
was supplied, and fails with the empty-schema-inference error otherwise;
the explicit-schema path is the sole way an empty input succeeds. -/
theorem c1_empty_input_iff_explicit_schema (data : Data) (arg : SchemaArg)
    (h : sizedLen data = Except.ok 0) :
    ((∃ r, createDataFrame data arg = .ok r) ↔ hasExplicitSchema arg = true) ∧
    (hasExplicitSchema arg = true →
      createDataFrame data arg = .ok ⟨Option.none, emptyResolved arg⟩ ∧
      DFResult.numRows ⟨Option.none, emptyResolved arg⟩ = 0) ∧
    (hasExplicitSchema arg = false → createDataFrame data arg = .error .emptyDataset) := by
  have hcdf : createDataFrame data arg = emptyPath (argSchema arg) (argStr arg) := by
    unfold createDataFrame
    rw [h]
    simp
  cases arg <;>
    simp [hcdf, emptyPath, argSchema, argStr, hasExplicitSchema, emptyResolved, DFResult.numRows]

/-- Witness for C1 at concrete inputs: an empty list with an explicit
struct schema succeeds with a zero-row typed relation; with no schema it
fails with the empty-dataset error. -/
theorem c1_witness :
    createDataFrame (.records []) (.struct ⟨[⟨"id", .longT, true⟩], ["id"]⟩) =
      .ok ⟨Option.none, .explicitTy (.struct ⟨[⟨"id", .longT, true⟩], ["id"]⟩)⟩ ∧
    createDataFrame (.records []) .noSchema = .error .emptyDataset :=
  ⟨((c1_empty_input_iff_explicit_schema (.records [])
      (.struct ⟨[⟨"id", .longT, true⟩], ["id"]⟩) rfl).2.1 rfl).1,
   (c1_empty_input_iff_explicit_schema (.records []) .noSchema rfl).2.2 rfl⟩

/-- C3: `_inferSchemaFromList` first folds all per-row schemas into one
merged schema and only then validates: for any non-empty row list whose
merge succeeds, the outcome is determined solely by whether the merged
schema still has a null-typed field — per-row null-only schemas are
irrelevant. -/
theorem c3_merge_first_validate_once (data : List Record) (names : Option (List String))
    (s : StructType) (hne : data ≠ []) (hfold : mergedSchemaOf data names = .ok s) :
    inferSchemaFromList data names =
      (if hasNulltype s then .error .indeterminate else .ok s) ∧
    (hasNulltype s = false → inferSchemaFromList data names = .ok s) := by
  match data, hne with
  | r :: rest, _ =>
    constructor
    · unfold inferSchemaFromList
      rw [hfold]
    · intro hnull
      unfold inferSchemaFromList
      rw [hfold]
      simp [hnull]

/-- Witness for C3: a column that is null-only in the first row (its
per-row schema has a null type) but resolves in the second row does not
fail — inference succeeds with the merged long-typed column. -/
theorem c3_witness :
    hasNulltype (inferSchema (.dict [("a", PyVal.none)]) Option.none) = true ∧
    inferSchemaFromList [.dict [("a", PyVal.none)], .dict [("a", .int 1)]] Option.none =
      .ok ⟨[⟨"a", .longT, true⟩], ["a"]⟩ :=
  ⟨by decide,
   (c3_merge_first_validate_once [.dict [("a", PyVal.none)], .dict [("a", .int 1)]]
      Option.none ⟨[⟨"a", .longT, true⟩], ["a"]⟩ (by decide) (by decide)).2 (by decide)⟩

/-- Counterexample to C4 as stated: a rank-2 array with second-axis size
`N = 1` gets the default column name `"value"`, not `"_1"`. -/
theorem c4_counterexample :
    createDataFrame (.ndarray ⟨[1, 1], [5]⟩) .noSchema =
      .ok ⟨Option.some ⟨[⟨"value", .plain, [.int 5]⟩]⟩, .renamedCols ["value"]⟩ ∧
    ("value" : String) ≠ "_1" := by
  constructor
  · rfl
  · decide

/-- Counterexample to C5 as stated: explicit names `["x","y"]` against a
3-wide sequence row succeeds with a 2-column table — the trailing value
`3` is silently dropped and no length-mismatch error (3 vs 2) is raised. -/
theorem c5_counterexample :
    createDataFrame (.records [.seq [.int 1, .int 2, .int 3]]) (.cols ["x", "y"]) =
      .ok ⟨Option.some ⟨[⟨"x", .plain, [.int 1]⟩, ⟨"y", .plain, [.int 2]⟩]⟩,
        .renamedCols ["x", "y"]⟩ ∧
    createDataFrame (.records [.seq [.int 1, .int 2, .int 3]]) (.cols ["x", "y"]) ≠
      .error (.lengthMismatch 3 2) := by
  constructor
  · rfl
  · decide

/-- Counterexample to C6 as stated: a non-empty iterable of scalars with
no schema and no names gets the default column name `"_1"`, not
`"value"`. -/
theorem c6_counterexample :
    createDataFrame (.records [.scalar (.int 5)]) .noSchema =
      .ok ⟨Option.some ⟨[⟨"_1", .plain, [.int 5]⟩]⟩, .renamedCols ["_1"]⟩ ∧
    ("_1" : String) ≠ "value" := by
  constructor
  · rfl
  · decide

/-- Counterexample to C8 as stated: a rank-3 array whose first axis has
length 0 does not fail with the invalid-rank error — the empty-input
short-circuit runs first and, with an explicit schema, succeeds. -/
theorem c8_counterexample :
    createDataFrame (.ndarray ⟨[0, 2, 2], []⟩) (.struct ⟨[⟨"a", .longT, true⟩], ["a"]⟩) =
      .ok ⟨Option.none, .explicitTy (.struct ⟨[⟨"a", .longT, true⟩], ["a"]⟩)⟩ ∧
    createDataFrame (.ndarray ⟨[0, 2, 2], []⟩) (.struct ⟨[⟨"a", .longT, true⟩], ["a"]⟩) ≠
      .error .invalidRank := by
  constructor
  · rfl
  · decide



/-- Two records that are the same mapping written with a different key
insertion order: both are dicts holding the same key/value pairs (keys
unique, as Python dict keys are). -/
def KeyReorder (r1 r2 : Record) : Prop :=
  ∃ l1 l2, r1 = .dict l1 ∧ r2 = .dict l2 ∧ l1.Perm l2 ∧ (l1.map Prod.fst).Nodup

lemma perm_pairwise_keyLt_eq {l1 l2 : List (String × PyVal)} (hp : l1.Perm l2)
    (h1 : l1.Pairwise (fun a b => a.1 < b.1))
    (h2 : l2.Pairwise (fun a b => a.1 < b.1)) : l1 = l2 := by
  haveI : IsAntisymm (String × PyVal) (fun a b => a.1 < b.1) :=
    ⟨fun a b hab hba => absurd hab (lt_asymm hba)⟩
  exact List.eq_of_perm_of_sorted hp h1 h2

lemma sorted_keyLt_of_nodup {l : List (String × PyVal)}
    (hnd : (l.map Prod.fst).Nodup) :
    (l.insertionSort (fun a b => a.1 ≤ b.1)).Pairwise (fun a b => a.1 < b.1) := by
  haveI : IsTotal (String × PyVal) (fun a b => a.1 ≤ b.1) :=
    ⟨fun a b => le_total a.1 b.1⟩
  haveI : IsTrans (String × PyVal) (fun a b => a.1 ≤ b.1) :=
    ⟨fun _ _ _ hab hbc => le_trans hab hbc⟩
  have hsorted := List.sorted_insertionSort (fun a b : String × PyVal => a.1 ≤ b.1) l
  have hperm := List.perm_insertionSort (fun a b : String × PyVal => a.1 ≤ b.1) l
  have hnd2 : ((l.insertionSort (fun a b => a.1 ≤ b.1)).map Prod.fst).Nodup :=
    (hnd.perm (hperm.map Prod.fst).symm)
  have hne : (l.insertionSort (fun a b => a.1 ≤ b.1)).Pairwise
      (fun a b : String × PyVal => a.1 ≠ b.1) := List.pairwise_map.mp hnd2
  exact (hsorted.and hne).imp (fun h => lt_of_le_of_ne h.1 h.2)

lemma sortRecord_keyReorder {r1 r2 : Record} (h : KeyReorder r1 r2) :
    sortRecord r1 = sortRecord r2 := by
  obtain ⟨l1, l2, h1, h2, hp, hnd⟩ := h
  subst h1; subst h2
  have hnd2 : (l2.map Prod.fst).Nodup := hnd.perm (hp.map Prod.fst)
  have hperm : (l1.insertionSort (fun a b => a.1 ≤ b.1)).Perm
      (l2.insertionSort (fun a b => a.1 ≤ b.1)) :=
    ((List.perm_insertionSort _ l1).trans hp).trans
      (List.perm_insertionSort _ l2).symm
  have heq := perm_pairwise_keyLt_eq hperm (sorted_keyLt_of_nodup hnd) (sorted_keyLt_of_nodup hnd2)
  simp only [sortRecord]
  rw [heq]

/-- C2: re-ordering the key insertion order inside mapping rows does not
change anything observable: whenever no typed schema is supplied (so the
inference path with its lexicographic key sort runs), two runs of
`createDataFrame` on pointwise key-reordered inputs return identical
results — same schema, same column order, same table. -/
theorem c2_dict_key_order_irrelevant (rows1 rows2 : List Record) (arg : SchemaArg)
    (hrel : List.Forall₂ KeyReorder rows1 rows2)
    (hsch : argSchema arg = Option.none) :
    createDataFrame (.records rows1) arg = createDataFrame (.records rows2) arg := by
  have hmap : rows1.map sortRecord = rows2.map sortRecord := by
    induction hrel with
    | nil => rfl
    | cons hab _ ih => simp [sortRecord_keyReorder hab, ih]
  cases hrel with
  | nil => rfl
  | @cons a b l1 l2 hab hrest =>
    obtain ⟨la, lb, ha, hb, _, _⟩ := hab
    subst ha; subst hb
    have hlen : l1.length = l2.length := hrest.length_eq
    simp only [createDataFrame, sizedLen, List.length_cons, hsch]
    have h1 : ¬(l1.length + 1 = 0) := by omega
    have h2 : ¬(l2.length + 1 = 0) := by omega
    simp only [hlen, if_neg h2, buildNonEmpty, recordsBranch, List.head?_cons,
      Record.isRowOrDict, Record.isDict, Option.isNone, Bool.true_and, if_pos]
    rw [hmap]

/-- Witness for C2: one-row inputs `{"b": 2, "a": 1}` and
`{"a": 1, "b": 2}` produce identical results. -/
theorem c2_witness :
    createDataFrame (.records [.dict [("b", .int 2), ("a", .int 1)]]) .noSchema =
      createDataFrame (.records [.dict [("a", .int 1), ("b", .int 2)]]) .noSchema :=
  c2_dict_key_order_irrelevant _ _ .noSchema
    (List.Forall₂.cons
      ⟨[("b", .int 2), ("a", .int 1)], [("a", .int 1), ("b", .int 2)],
        rfl, rfl, by decide, by decide⟩
      List.Forall₂.nil) rfl



lemma defaultNames_length (n : Nat) : (defaultNames n).length = n := by
  simp [defaultNames]

lemma numpyTable_rank2_none (a : NpArray) (r w : Nat) (harr : a.shape = [r, w]) :
    numpyTable a Option.none =
      .ok (⟨(if w = 1 then ["value"] else defaultNames w).enum.map
            (fun p => PaCol.mk p.2 .plain (npColumn a w p.1))⟩,
        if w = 1 then ["value"] else defaultNames w) := by
  have hwlen : (if w = 1 then ["value"] else defaultNames w).length = w := by
    by_cases h1 : w = 1
    · simp [h1]
    · simp [h1, defaultNames_length]
  unfold numpyTable
  rw [harr]
  simp [hwlen]

lemma numpyTable_rank2_cols (a : NpArray) (r w : Nat) (names : List String)
    (harr : a.shape = [r, w]) (h : names.length ≠ w) :
    numpyTable a (Option.some names) = .error (.lengthMismatch w names.length) := by
  have h2 : w ≠ names.length := fun hh => h hh.symm
  unfold numpyTable
  rw [harr]
  simp [h2]

/-- Amended C4: a rank-2 numeric array with a nonzero first axis and no
explicit column-name list gets one column per second-axis index, with
default names `"_1".."_N"` when `N ≠ 1` but the single name `"value"`
when `N = 1`; an explicit name list whose length disagrees with the
second-axis size fails with the length-mismatch error carrying both
counts. -/
theorem c4_rank2_default_names (a : NpArray) (r w : Nat)
    (harr : a.shape = [r, w]) (hr : r ≠ 0) :
    (1 ≤ w →
      createDataFrame (.ndarray a) .noSchema =
        .ok ⟨Option.some ⟨(if w = 1 then ["value"] else defaultNames w).enum.map
              (fun p => PaCol.mk p.2 .plain (npColumn a w p.1))⟩,
          .renamedCols (if w = 1 then ["value"] else defaultNames w)⟩ ∧
      ((if w = 1 then ["value"] else defaultNames w).enum.map
          (fun p => PaCol.mk p.2 .plain (npColumn a w p.1))).length = w) ∧
    (∀ names : List String, names.length ≠ w →
      createDataFrame (.ndarray a) (.cols names) =
        .error (.lengthMismatch w names.length)) := by
  have hwlen : (if w = 1 then ["value"] else defaultNames w).length = w := by
    by_cases h1 : w = 1
    · simp [h1]
    · simp [h1, defaultNames_length]
  have hcdf : ∀ sa : SchemaArg, createDataFrame (.ndarray a) sa =
      buildNonEmpty (.ndarray a) (argSchema sa) (argStr sa) (argCols sa) := by
    intro sa
    have hs : sizedLen (Data.ndarray a) = Except.ok r := by
      simp only [sizedLen]
      rw [harr]
    unfold createDataFrame
    rw [hs]
    simp [hr]
  constructor
  · intro hw
    refine ⟨?_, by simp [hwlen]⟩
    rw [hcdf]
    simp only [buildNonEmpty, argSchema, argStr, argCols,
      numpyTable_rank2_none a r w harr]
    unfold finish structLenErr colsLenErr pickResolved
    simp [hwlen]
    omega
  · intro names hnames
    rw [hcdf]
    simp only [buildNonEmpty, argSchema, argStr, argCols,
      numpyTable_rank2_cols a r w names harr hnames]

/-- Witness for C4 (amended): a 2×3 array with no hint yields columns
`"_1","_2","_3"`; with an explicit single name it fails reporting
`3` vs `1`. -/
theorem c4_witness :
    createDataFrame (.ndarray ⟨[2, 3], [1, 2, 3, 4, 5, 6]⟩) .noSchema =
      .ok ⟨Option.some ⟨[⟨"_1", .plain, [.int 1, .int 4]⟩,
            ⟨"_2", .plain, [.int 2, .int 5]⟩, ⟨"_3", .plain, [.int 3, .int 6]⟩]⟩,
        .renamedCols ["_1", "_2", "_3"]⟩ ∧
    createDataFrame (.ndarray ⟨[2, 3], [1, 2, 3, 4, 5, 6]⟩) (.cols ["p"]) =
      .error (.lengthMismatch 3 1) := by
  have h := c4_rank2_default_names ⟨[2, 3], [1, 2, 3, 4, 5, 6]⟩ 2 3 rfl (by decide)
  refine ⟨?_, h.2 ["p"] (by decide)⟩
  have h1 := (h.1 (by decide)).1
  rw [h1]
  rfl



lemma lookup_zip_self (names : List String) (row : List PyVal) (i : Nat)
    (hnd : names.Nodup) (hi : i < names.length) (hle : names.length ≤ row.length) :
    List.lookup names[i] (names.zip row) = Option.some (row.getD i PyVal.none) := by
  induction names generalizing row i with
  | nil => simp at hi
  | cons n ns ih =>
    match row with
    | [] => simp at hle
    | v :: vs =>
      match i with
      | 0 => simp [List.lookup]
      | Nat.succ j =>
        have hj : j < ns.length := by simpa using hi
        have hne : ns[j] ≠ n :=
          fun hh => (List.nodup_cons.mp hnd).1 (hh ▸ List.getElem_mem hj)
        simp only [List.getElem_cons_succ, List.zip_cons_cons, List.lookup_cons,
          beq_eq_false_iff_ne.mpr hne, List.getD_cons_succ]
        exact ih vs j (List.nodup_cons.mp hnd).2 hj (by simpa using hle)

lemma from_pylist_zip (names : List String) (rows : List (List PyVal))
    (hnd : names.Nodup) (hwide : ∀ row ∈ rows, names.length ≤ row.length)
    (hrows : rows ≠ []) :
    from_pylist (rows.map (fun row => names.zip row)) =
      ⟨names.enum.map (fun p => PaCol.mk p.2 .plain
        (rows.map (fun row => row.getD p.1 PyVal.none)))⟩ := by
  match rows, hrows with
  | r0 :: rest, _ =>
    have h0 : names.length ≤ r0.length := hwide r0 (by simp)
    simp only [List.map_cons, from_pylist]
    congr 1
    apply List.ext_getElem
    · simp only [List.length_map, List.length_zip, List.enum_length]
      omega
    · intro i h1 h2
      have hi : i < names.length := by
        simp only [List.length_map, List.length_zip] at h1
        omega
      simp only [List.getElem_map, List.getElem_zip, List.getElem_enum]
      congr 1
      · simp [lookup_zip_self names r0 i hnd hi h0]
        intro row hrow
        have hl := lookup_zip_self names row i hnd hi
          (hwide row (List.mem_cons_of_mem _ hrow))
        simp [hl, List.getD_eq_getElem?_getD]

lemma finish_no_schema_cols (t : PaTable) (names : List String)
    (hlen : names.length = t.cols.length) (hpos : 0 < names.length) :
    finish t Option.none Option.none Option.none (Option.some names) =
      .ok ⟨Option.some t, .renamedCols names⟩ := by
  have hcne : t.cols ≠ [] := by
    have hp := hpos
    rw [hlen] at hp
    exact List.length_pos.mp hp
  unfold finish structLenErr colsLenErr pickResolved
  simp [hlen, hpos, hcne]

lemma finish_atomic_cols (t : PaTable) (ty : DataType) (names : List String)
    (hlen : names.length = t.cols.length) :
    finish t Option.none (Option.some (.atomic ty)) Option.none (Option.some names) =
      .ok ⟨Option.some t, .explicitTy (.atomic ty)⟩ := by
  unfold finish structLenErr colsLenErr pickResolved
  simp [hlen]

/-- Amended C5: explicit column names shorter than the sequence-row
width do not fail — `dict(zip(_cols, item))` silently truncates each row
to the first `len(names)` values, the built table has exactly
`len(names)` columns, and the final column-count validation succeeds
because it compares `len(_cols)` with that already-truncated count. -/
theorem c5_short_names_silently_truncate (rows : List (List PyVal)) (names : List String)
    (hrows : rows ≠ []) (hnd : names.Nodup) (hne : names ≠ [])
    (hwide : ∀ row ∈ rows, names.length ≤ row.length) :
    createDataFrame (.records (rows.map Record.seq)) (.cols names) =
      .ok ⟨Option.some ⟨names.enum.map (fun p =>
          PaCol.mk p.2 .plain (rows.map (fun row => row.getD p.1 PyVal.none)))⟩,
        .renamedCols names⟩ ∧
    (names.enum.map (fun p =>
        PaCol.mk p.2 .plain (rows.map (fun row => row.getD p.1 PyVal.none)))).length
      = names.length := by
  refine ⟨?_, by simp⟩
  match rows, hrows with
  | r0 :: rest, _ =>
    have hs : sizedLen (.records ((r0 :: rest).map Record.seq)) =
        Except.ok (rest.length + 1) := by
      simp [sizedLen]
    have h1 : createDataFrame (.records ((r0 :: rest).map Record.seq)) (.cols names) =
        recordsBranch ((r0 :: rest).map Record.seq) Option.none Option.none
          (Option.some names) := by
      unfold createDataFrame
      rw [hs]
      simp [buildNonEmpty, argSchema, argStr, argCols]
    have h2 : recordsBranch ((r0 :: rest).map Record.seq) Option.none Option.none
          (Option.some names) =
        buildRecordsTable ((r0 :: rest).map Record.seq) Option.none Option.none
          (Option.some names) Option.none := by
      simp [recordsBranch, Record.isRowOrDict]
    have hbt : buildTable (Record.seq r0) ((r0 :: rest).map Record.seq) names =
        from_pylist ((r0 :: rest).map (fun row => names.zip row)) := by
      show from_pylist (((r0 :: rest).map Record.seq).map
            (fun r => names.zip r.seqValsOf)) = _
      congr 1
      rw [List.map_map]
      apply List.map_congr_left
      intro row _
      rfl
    have hfz := from_pylist_zip names (r0 :: rest) hnd hwide (by simp)
    have hlenpos : 0 < names.length := List.length_pos.mpr hne
    have hfin := finish_no_schema_cols
      (⟨names.enum.map (fun p => PaCol.mk p.2 .plain
          ((r0 :: rest).map (fun row => row.getD p.1 PyVal.none)))⟩ : PaTable)
      names (by simp) hlenpos
    rw [h1, h2]
    unfold buildRecordsTable
    simp only [List.map_cons, List.head?_cons]
    rw [show resolveCols (Record.seq r0) Option.none Option.none (Option.some names) =
          names from rfl]
    simp only [List.map_cons] at hbt hfz hfin
    rw [hbt, hfz, hfin]

lemma map_lookup_single (n : String) (vs : List PyVal) :
    (vs.map (fun v => [(n, v)])).map
      (fun r => (List.lookup n r).getD PyVal.none) = vs := by
  induction vs with
  | nil => rfl
  | cons v rest ih => simp [List.lookup, ih]

lemma from_pylist_single (n : String) (vs : List PyVal) (hne : vs ≠ []) :
    from_pylist (vs.map (fun v => [(n, v)])) = ⟨[⟨n, .plain, vs⟩]⟩ := by
  match vs, hne with
  | v0 :: rest, _ =>
    have h := map_lookup_single n (v0 :: rest)
    simp only [List.map_cons] at h
    simp only [List.map_cons, from_pylist, List.map_nil]
    simp [h]
    injection h with h3 h4
    rw [← List.map_map]
    exact h4

/-- Amended C6: a non-empty iterable of scalar rows with no explicit
schema and no explicit names gets the positional default column name
`"_1"`; the name `"value"` is applied to scalar rows only when an
explicit atomic (non-struct) schema is supplied. -/
theorem c6_scalar_default_is_positional (vs : List PyVal) (hne : vs ≠ []) :
    createDataFrame (.records (vs.map Record.scalar)) .noSchema =
      .ok ⟨Option.some ⟨[⟨"_1", .plain, vs⟩]⟩, .renamedCols ["_1"]⟩ ∧
    ∀ t : DataType, createDataFrame (.records (vs.map Record.scalar)) (.atomic t) =
      .ok ⟨Option.some ⟨[⟨"value", .plain, vs⟩]⟩, .explicitTy (.atomic t)⟩ := by
  match vs, hne with
  | v0 :: rest, _ =>
    have hs : sizedLen (.records ((v0 :: rest).map Record.scalar)) =
        Except.ok (rest.length + 1) := by
      simp [sizedLen]
    have hbt : ∀ c : String,
        buildTable (Record.scalar v0) ((v0 :: rest).map Record.scalar) [c] =
          from_pylist ((v0 :: rest).map (fun v => [(c, v)])) := by
      intro c
      show from_pylist (((v0 :: rest).map Record.scalar).map
            (fun r => [c].zip [r.scalarValOf])) = _
      congr 1
      rw [List.map_map]
      apply List.map_congr_left
      intro v _
      rfl
    constructor
    · have h1 : createDataFrame (.records ((v0 :: rest).map Record.scalar)) .noSchema =
          recordsBranch ((v0 :: rest).map Record.scalar) Option.none Option.none
            Option.none := by
        unfold createDataFrame
        rw [hs]
        simp [buildNonEmpty, argSchema, argStr, argCols]
      have h2 : recordsBranch ((v0 :: rest).map Record.scalar) Option.none Option.none
            Option.none =
          buildRecordsTable ((v0 :: rest).map Record.scalar) Option.none Option.none
            Option.none Option.none := by
        simp [recordsBranch, Record.isRowOrDict]
      have hbt1 := hbt "_1"
      have hfs := from_pylist_single "_1" (v0 :: rest) (by simp)
      have hfin := finish_no_schema_cols (⟨[⟨"_1", .plain, v0 :: rest⟩]⟩ : PaTable)
        ["_1"] (by simp) (by simp)
      rw [h1, h2]
      unfold buildRecordsTable
      simp only [List.map_cons, List.head?_cons]
      rw [show resolveCols (Record.scalar v0) Option.none Option.none Option.none =
            ["_1"] from rfl]
      simp only [List.map_cons] at hbt1 hfs
      rw [hbt1, hfs, hfin]
    · intro t
      have h1 : createDataFrame (.records ((v0 :: rest).map Record.scalar)) (.atomic t) =
          recordsBranch ((v0 :: rest).map Record.scalar)
            (Option.some (.atomic t)) Option.none Option.none := by
        unfold createDataFrame
        rw [hs]
        simp [buildNonEmpty, argSchema, argStr, argCols]
      have h2 : recordsBranch ((v0 :: rest).map Record.scalar)
            (Option.some (.atomic t)) Option.none Option.none =
          buildRecordsTable ((v0 :: rest).map Record.scalar)
            (Option.some (.atomic t)) Option.none Option.none Option.none := by
        simp [recordsBranch, Record.isRowOrDict]
      have hbt1 := hbt "value"
      have hfs := from_pylist_single "value" (v0 :: rest) (by simp)
      have hfin := finish_atomic_cols (⟨[⟨"value", .plain, v0 :: rest⟩]⟩ : PaTable)
        t ["value"] (by simp)
      rw [h1, h2]
      unfold buildRecordsTable
      simp only [List.map_cons, List.head?_cons]
      rw [show resolveCols (Record.scalar v0) (Option.some (SchemaTy.atomic t))
            Option.none Option.none = ["value"] from rfl]
      simp only [List.map_cons] at hbt1 hfs
      rw [hbt1, hfs, hfin]



/-- Witness for C5 (amended): names `["a","b"]` over two 3-wide rows
succeed with two columns, third values dropped. -/
theorem c5_witness :
    createDataFrame
        (.records [.seq [.int 10, .int 20, .int 30], .seq [.int 40, .int 50, .int 60]])
        (.cols ["a", "b"]) =
      .ok ⟨Option.some ⟨[⟨"a", .plain, [.int 10, .int 40]⟩,
          ⟨"b", .plain, [.int 20, .int 50]⟩]⟩, .renamedCols ["a", "b"]⟩ := by
  have h := (c5_short_names_silently_truncate
    [[.int 10, .int 20, .int 30], [.int 40, .int 50, .int 60]] ["a", "b"]
    (by decide) (by decide) (by decide) (by decide)).1
  exact h.trans (by decide)

/-- Witness for C6 (amended): two scalar rows get column `"_1"` with no
schema and `"value"` with an explicit atomic schema. -/
theorem c6_witness :
    createDataFrame (.records [.scalar (.str "q"), .scalar (.int 3)]) .noSchema =
      .ok ⟨Option.some ⟨[⟨"_1", .plain, [.str "q", .int 3]⟩]⟩, .renamedCols ["_1"]⟩ ∧
    createDataFrame (.records [.scalar (.str "q"), .scalar (.int 3)]) (.atomic .stringT) =
      .ok ⟨Option.some ⟨[⟨"value", .plain, [.str "q", .int 3]⟩]⟩,
        .explicitTy (.atomic .stringT)⟩ :=
  ⟨(c6_scalar_default_is_positional [.str "q", .int 3] (by decide)).1,
   (c6_scalar_default_is_positional [.str "q", .int 3] (by decide)).2 .stringT⟩

lemma createDataFrame_lenErr (data : Data) (arg : SchemaArg) (e : CdfError)
    (hs : sizedLen data = .error e) : createDataFrame data arg = .error e := by
  unfold createDataFrame
  rw [hs]

lemma createDataFrame_emptyLen (data : Data) (arg : SchemaArg)
    (hs : sizedLen data = .ok 0) :
    createDataFrame data arg = emptyPath (argSchema arg) (argStr arg) := by
  unfold createDataFrame
  rw [hs]
  simp

lemma createDataFrame_nonempty (data : Data) (arg : SchemaArg) (n : Nat)
    (hs : sizedLen data = .ok n) (hn : n ≠ 0) :
    createDataFrame data arg =
      buildNonEmpty data (argSchema arg) (argStr arg) (argCols arg) := by
  unfold createDataFrame
  rw [hs]
  simp [hn]

lemma finish_ok_table (t : PaTable) (inferred : Option StructType)
    (sch : Option SchemaTy) (sstr : Option String) (cols : Option (List String))
    (r : DFResult) (h : finish t inferred sch sstr cols = .ok r) :
    r.table = Option.some t := by
  unfold finish at h
  split at h
  · exact absurd h (by simp)
  · split at h
    · exact absurd h (by simp)
    · injection h with h2
      rw [← h2]

lemma finish_struct_ok_len (t : PaTable) (inferred : Option StructType)
    (sstr : Option String) (cols : Option (List String)) (s : StructType)
    (r : DFResult) (h : finish t inferred (Option.some (.struct s)) sstr cols = .ok r) :
    t.cols.length = s.fields.length := by
  by_cases hlen : s.fields.length = t.cols.length
  · exact hlen.symm
  · exfalso
    unfold finish structLenErr at h
    simp [hlen] at h

lemma finish_struct_mismatch (t : PaTable) (inferred : Option StructType)
    (sstr : Option String) (cols : Option (List String)) (s : StructType)
    (h : t.cols.length ≠ s.fields.length) :
    finish t inferred (Option.some (.struct s)) sstr cols =
      .error (.lengthMismatch t.cols.length s.fields.length) := by
  have h2 : s.fields.length ≠ t.cols.length := fun hh => h hh.symm
  unfold finish structLenErr
  simp [h2]

/-- C7: with an explicit struct schema, every successful call builds a
table whose physical column count equals the schema's field count; and
whenever the built table's column count disagrees, the validation step
fails with the length-mismatch error listing the physical count and the
field count. -/
theorem c7_struct_field_count_validated :
    (∀ (data : Data) (s : StructType) (r : DFResult) (t : PaTable),
      createDataFrame data (.struct s) = .ok r → r.table = Option.some t →
      t.cols.length = s.fields.length) ∧
    (∀ (t : PaTable) (inferred : Option StructType) (sstr : Option String)
        (cols : Option (List String)) (s : StructType),
      t.cols.length ≠ s.fields.length →
      finish t inferred (Option.some (.struct s)) sstr cols =
        .error (.lengthMismatch t.cols.length s.fields.length)) := by
  constructor
  · intro data s r t hok htab
    cases hsl : sizedLen data with
    | error e =>
      rw [createDataFrame_lenErr data _ e hsl] at hok
      exact absurd hok (by simp)
    | ok n =>
      by_cases hn : n = 0
      · rw [hn] at hsl
        rw [createDataFrame_emptyLen data _ hsl] at hok
        simp only [argSchema, argStr, emptyPath] at hok
        injection hok with h2
        rw [← h2] at htab
        exact absurd htab (by simp)
      · rw [createDataFrame_nonempty data _ n hsl hn] at hok
        have hlen : ∀ t2 inf2 sstr2 cols2,
            finish t2 inf2 (Option.some (SchemaTy.struct s)) sstr2 cols2 = .ok r →
            r.table = Option.some t2 → t.cols.length = s.fields.length := by
          intro t2 inf2 sstr2 cols2 hfin htab2
          have h2 := finish_struct_ok_len t2 inf2 sstr2 cols2 s r hfin
          rw [htab2] at htab
          injection htab with h3
          rw [← h3]
          exact h2
        cases data with
        | dataframe df =>
          simp only [buildNonEmpty, argSchema, argStr, argCols] at hok
          exact hlen _ _ _ _ hok (finish_ok_table _ _ _ _ _ _ hok)
        | ndarray a =>
          simp only [buildNonEmpty, argSchema, argStr, argCols] at hok
          cases hnp : numpyTable a Option.none with
          | error e => rw [hnp] at hok; exact absurd hok (by simp)
          | ok p =>
            rw [hnp] at hok
            exact hlen _ _ _ _ hok (finish_ok_table _ _ _ _ _ _ hok)
        | records rows =>
          simp only [buildNonEmpty, argSchema, argStr, argCols] at hok
          unfold recordsBranch at hok
          cases hh : rows.head? with
          | none => rw [hh] at hok; exact absurd hok (by simp)
          | some r0 =>
            rw [hh] at hok
            have hok2 : buildRecordsTable rows (Option.some (SchemaTy.struct s))
                Option.none Option.none Option.none = Except.ok r := hok
            unfold buildRecordsTable at hok2
            rw [hh] at hok2
            have hok3 : finish
                (buildTable r0 rows (resolveCols r0 (Option.some (SchemaTy.struct s))
                  Option.none Option.none))
                Option.none (Option.some (SchemaTy.struct s)) Option.none
                (Option.some (resolveCols r0 (Option.some (SchemaTy.struct s))
                  Option.none Option.none)) = Except.ok r := hok2
            exact hlen _ _ _ _ hok3 (finish_ok_table _ _ _ _ _ _ hok3)
  · intro t inferred sstr cols s h
    exact finish_struct_mismatch t inferred sstr cols s h

/-- Witness for C7: a successful concrete call agrees on counts, and a
concrete disagreeing table fails with the error carrying `0` and `1`. -/
theorem c7_witness :
    (⟨[⟨"a", .plain, [.int 1]⟩]⟩ : PaTable).cols.length =
      (⟨[⟨"a", .longT, true⟩], ["a"]⟩ : StructType).fields.length ∧
    finish ⟨[]⟩ Option.none
        (Option.some (.struct ⟨[⟨"a", .longT, true⟩], ["a"]⟩)) Option.none Option.none =
      .error (.lengthMismatch 0 1) :=
  ⟨c7_struct_field_count_validated.1 (.records [.seq [.int 1]])
      ⟨[⟨"a", .longT, true⟩], ["a"]⟩
      ⟨Option.some ⟨[⟨"a", .plain, [.int 1]⟩]⟩,
        .explicitTy (.struct ⟨[⟨"a", .longT, true⟩], ["a"]⟩)⟩
      ⟨[⟨"a", .plain, [.int 1]⟩]⟩ (by decide) rfl,
   c7_struct_field_count_validated.2 ⟨[]⟩ Option.none Option.none Option.none
      ⟨[⟨"a", .longT, true⟩], ["a"]⟩ (by decide)⟩

lemma numpyTable_no_invalidRank (a : NpArray) (cols0 : Option (List String))
    (hr : a.shape.length = 1 ∨ a.shape.length = 2) :
    numpyTable a cols0 ≠ .error .invalidRank := by
  intro h
  unfold numpyTable at h
  rw [if_neg (show ¬(a.shape.length ≠ 1 ∧ a.shape.length ≠ 2) by tauto)] at h
  dsimp only at h
  split at h <;> split at h <;> split at h <;> simp at h

lemma finish_no_invalidRank (t : PaTable) (inferred : Option StructType)
    (sch : Option SchemaTy) (sstr : Option String) (cols : Option (List String)) :
    finish t inferred sch sstr cols ≠ .error .invalidRank := by
  intro h
  unfold finish at h
  split at h
  · rename_i e he
    unfold structLenErr at he
    split at he
    · split at he
      · injection he with he2
        rw [← he2] at h
        exact absurd h (by simp)
      · exact absurd he (by simp)
    · exact absurd he (by simp)
  · split at h
    · rename_i e he
      unfold colsLenErr at he
      split at he
      · split at he
        · injection he with he2
          rw [← he2] at h
          exact absurd h (by simp)
        · exact absurd he (by simp)
      · exact absurd he (by simp)
    · exact absurd h (by simp)

/-- Amended C8: for arrays with a nonzero first axis the rank check
behaves as claimed — rank outside {1,2} fails with the invalid-rank
error and ranks 1 and 2 never produce it; an array whose first axis has
length 0 never reaches the rank check (the empty-input short-circuit
runs first), and a 0-dim array fails on `len()` before the rank check. -/
theorem c8_rank_check_behind_empty_check (a : NpArray) (arg : SchemaArg)
    (hne : a.shape.headD 0 ≠ 0) :
    ((a.shape.length ≠ 1 ∧ a.shape.length ≠ 2) →
      createDataFrame (.ndarray a) arg = .error .invalidRank) ∧
    ((a.shape.length = 1 ∨ a.shape.length = 2) →
      createDataFrame (.ndarray a) arg ≠ .error .invalidRank) := by
  obtain ⟨n, restD, hsh⟩ : ∃ n restD, a.shape = n :: restD := by
    cases hview : a.shape with
    | nil => rw [hview] at hne; simp at hne
    | cons x xs => exact ⟨x, xs, rfl⟩
  have hn : n ≠ 0 := by
    rw [hsh] at hne
    simpa using hne
  have hs : sizedLen (.ndarray a) = Except.ok n := by
    simp only [sizedLen]
    rw [hsh]
  have hcdf := createDataFrame_nonempty (.ndarray a) arg n hs hn
  constructor
  · intro hrk
    rw [hcdf]
    simp only [buildNonEmpty]
    rw [show numpyTable a (argCols arg) = .error .invalidRank from by
      unfold numpyTable
      rw [if_pos hrk]]
  · intro hr hcontra
    rw [hcdf] at hcontra
    simp only [buildNonEmpty] at hcontra
    cases hnp : numpyTable a (argCols arg) with
    | error e =>
      rw [hnp] at hcontra
      injection hcontra with h2
      exact numpyTable_no_invalidRank a (argCols arg) hr (by rw [hnp, h2])
    | ok p =>
      rw [hnp] at hcontra
      obtain ⟨t, cols1⟩ := p
      exact finish_no_invalidRank t Option.none (argSchema arg) (argStr arg)
        (Option.some cols1) hcontra

/-- Witness for C8 (amended): a nonempty rank-3 array fails with the
invalid-rank error, and a nonempty rank-2 array does not. -/
theorem c8_witness :
    createDataFrame (.ndarray ⟨[2, 2, 2], [1, 2, 3, 4, 5, 6, 7, 8]⟩) .noSchema =
      .error .invalidRank ∧
    createDataFrame (.ndarray ⟨[2, 2], [1, 2, 3, 4]⟩) .noSchema ≠
      .error .invalidRank :=
  ⟨(c8_rank_check_behind_empty_check ⟨[2, 2, 2], [1, 2, 3, 4, 5, 6, 7, 8]⟩ .noSchema
      (by decide)).1 (by decide),
   (c8_rank_check_behind_empty_check ⟨[2, 2], [1, 2, 3, 4]⟩ .noSchema
      (by decide)).2 (by decide)⟩



/-- C9: the pandas (tabular-frame) branch rewrites exactly the
nanosecond-timestamp columns — truncating values to microseconds and
retyping them — while every other column passes through with the same
name, values and type as a plain conversion; when the frame holds no
timestamp column the branch returns the untouched direct conversion of
the input frame (no copy is made). -/
theorem c9_pandas_timestamp_only_rewrite (df : PdFrame)
    (h : sizedLen (.dataframe df) ≠ Except.ok 0) :
    createDataFrame (.dataframe df) .noSchema =
      .ok ⟨Option.some (pandasBranch df), .plain⟩ ∧
    (hasTimestampData df = false → pandasBranch df = fromPandasTable df) ∧
    (∀ (i : Nat) (c : PdCol), df[i]? = Option.some c → c.dtype = .other →
      (pandasBranch df).cols[i]? =
        Option.some ⟨c.name, .plain, c.vals.map PyVal.int⟩) ∧
    (∀ (i : Nat) (c : PdCol), df[i]? = Option.some c →
        (c.dtype = .tsNs ∨ c.dtype = .tsNsTz) →
      (pandasBranch df).cols[i]? =
        Option.some ⟨c.name, (if c.dtype = .tsNs then .tsUs else .tsUsTz),
          c.vals.map (fun v => PyVal.int (Int.fdiv v 1000))⟩) := by
  refine ⟨?_, ?_, ?_, ?_⟩
  · cases df with
    | nil => exact absurd rfl h
    | cons c0 df2 =>
      have hn0 : c0.vals.length ≠ 0 := fun hh => h (by
        rw [show sizedLen (.dataframe (c0 :: df2)) =
          Except.ok c0.vals.length from rfl, hh])
      rw [createDataFrame_nonempty (.dataframe (c0 :: df2)) .noSchema
        c0.vals.length rfl hn0]
      show finish (pandasBranch (c0 :: df2)) Option.none Option.none Option.none
        Option.none = _
      unfold finish structLenErr colsLenErr pickResolved
      simp
  · intro hts
    simp [pandasBranch, hts]
  · intro i c hic hdt
    unfold pandasBranch
    by_cases hts : hasTimestampData df
    · rw [if_pos hts]
      simp [List.getElem?_map, hic, convertPdCol, hdt]
    · rw [if_neg hts]
      simp [fromPandasTable, List.getElem?_map, hic, paTypeOfDType, hdt]
  · intro i c hic hts2
    have hmem : c ∈ df := List.getElem?_mem hic
    have hts : hasTimestampData df = true := by
      unfold hasTimestampData
      rw [List.any_eq_true]
      exact ⟨c, hmem, by rcases hts2 with h1 | h1 <;> simp [h1]⟩
    unfold pandasBranch
    rw [if_pos hts]
    rcases hts2 with h1 | h1 <;> simp [List.getElem?_map, hic, convertPdCol, h1]

/-- Witness for C9: a two-column frame (one ns-timestamp, one plain)
converts with the timestamp column truncated (1500 ns ↦ 1 µs) and the
plain column untouched. -/
theorem c9_witness :
    createDataFrame (.dataframe [⟨"t", .tsNs, [1500]⟩, ⟨"x", .other, [7]⟩]) .noSchema =
      .ok ⟨Option.some (pandasBranch [⟨"t", .tsNs, [1500]⟩, ⟨"x", .other, [7]⟩]),
        .plain⟩ ∧
    (pandasBranch [⟨"t", .tsNs, [1500]⟩, ⟨"x", .other, [7]⟩]).cols[0]? =
      Option.some ⟨"t", .tsUs, [.int 1]⟩ ∧
    (pandasBranch [⟨"t", .tsNs, [1500]⟩, ⟨"x", .other, [7]⟩]).cols[1]? =
      Option.some ⟨"x", .plain, [.int 7]⟩ := by
  have h := c9_pandas_timestamp_only_rewrite
    [⟨"t", .tsNs, [1500]⟩, ⟨"x", .other, [7]⟩] (by decide)
  refine ⟨h.1, ?_, h.2.2.1 1 ⟨"x", .other, [7]⟩ rfl rfl⟩
  have h2 := h.2.2.2 0 ⟨"t", .tsNs, [1500]⟩ rfl (Or.inl rfl)
  simpa using h2

lemma mergeType_lockstep {a b s : StructType} (h : mergeType a b = .ok s) :
    s.names = s.fields.map (·.name) := by
  unfold mergeType at h
  split at h
  · exact absurd h (by simp)
  · injection h with h2
    rw [← h2]

lemma foldl_merge_lockstep (rest : List Record) (names : Option (List String)) :
    ∀ acc : Except CdfError StructType,
    (∀ s0, acc = .ok s0 → s0.names = s0.fields.map (·.name)) →
    ∀ s, rest.foldl
        (fun (acc : Except CdfError StructType) row =>
          acc.bind (fun s => mergeType s (inferSchema row names)))
        acc = .ok s →
    s.names = s.fields.map (·.name) := by
  induction rest with
  | nil =>
    intro acc hacc s h
    exact hacc s h
  | cons r rest ih =>
    intro acc hacc s h
    refine ih _ ?_ s h
    intro s0 h0
    cases acc with
    | error e => simp [Except.bind] at h0
    | ok sp =>
      have h1 : mergeType sp (inferSchema r names) = .ok s0 := by
        simpa [Except.bind] using h0
      exact mergeType_lockstep h1

lemma inferSchema_lockstep (r : Record) (names : Option (List String)) :
    (inferSchema r names).names = (inferSchema r names).fields.map (·.name) := by
  cases r <;> rfl

lemma mergedSchemaOf_lockstep (data : List Record) (names : Option (List String))
    (s : StructType) (h : mergedSchemaOf data names = .ok s) :
    s.names = s.fields.map (·.name) := by
  match data with
  | [] => exact absurd h (by simp [mergedSchemaOf])
  | r :: rest =>
    have h2 : rest.foldl
        (fun (acc : Except CdfError StructType) row =>
          acc.bind (fun s => mergeType s (inferSchema row names)))
        (.ok (inferSchema r names)) = .ok s := h
    refine foldl_merge_lockstep rest names _ ?_ s h2
    intro s0 h0
    injection h0 with h1
    rw [← h1]
    exact inferSchema_lockstep r names

lemma renameGo_spec (cols : List String) :
    ∀ (s : StructType) (i : Nat),
    s.names = s.fields.map (·.name) →
    i + cols.length ≤ s.fields.length →
    ∃ s2, renameGo s i cols = .ok s2 ∧
      s2.names = s2.fields.map (·.name) ∧
      s2.fields.length = s.fields.length ∧
      (∀ j, j < i → s2.fields[j]? = s.fields[j]?) ∧
      (∀ j, j < cols.length → (s2.fields[i + j]?).map (·.name) = cols[j]?) := by
  induction cols with
  | nil =>
    intro s i hlock _
    exact ⟨s, rfl, hlock, rfl, fun _ _ => rfl, fun j hj => absurd hj (by simp)⟩
  | cons n rest ih =>
    intro s i hlock hle
    have hlen : s.names.length = s.fields.length := by
      rw [hlock]
      simp
    have hif : i < s.fields.length := by
      simp only [List.length_cons] at hle
      omega
    have hin : i < s.names.length := by omega
    have hstep : renameGo s i (n :: rest) =
        renameGo ⟨s.fields.set i (StructField.mk n (s.fields.get ⟨i, hif⟩).dataType
            (s.fields.get ⟨i, hif⟩).nullable), s.names.set i n⟩ (i + 1) rest := by
      rw [show renameGo s i (n :: rest) =
          (if h : i < s.fields.length ∧ i < s.names.length then
            renameGo ⟨s.fields.set i (StructField.mk n
                (s.fields.get ⟨i, h.1⟩).dataType (s.fields.get ⟨i, h.1⟩).nullable),
              s.names.set i n⟩ (i + 1) rest
          else Except.error CdfError.indexError) from rfl]
      rw [dif_pos ⟨hif, hin⟩]
    have hlock1 : (s.names.set i n) =
        (s.fields.set i (StructField.mk n (s.fields.get ⟨i, hif⟩).dataType
          (s.fields.get ⟨i, hif⟩).nullable)).map (·.name) := by
      rw [hlock, List.map_set]
    have hle1 : (i + 1) + rest.length ≤
        (s.fields.set i (StructField.mk n (s.fields.get ⟨i, hif⟩).dataType
          (s.fields.get ⟨i, hif⟩).nullable)).length := by
      simp only [List.length_set, List.length_cons] at hle ⊢
      omega
    obtain ⟨s2, hr, hl2, hlen2, hpres, hren⟩ :=
      ih ⟨s.fields.set i (StructField.mk n (s.fields.get ⟨i, hif⟩).dataType
        (s.fields.get ⟨i, hif⟩).nullable), s.names.set i n⟩ (i + 1) hlock1 hle1
    refine ⟨s2, hstep.trans hr, hl2, by simpa using hlen2, ?_, ?_⟩
    · intro j hj
      rw [hpres j (by omega)]
      exact List.getElem?_set_ne (by omega)
    · intro j hj
      cases j with
      | zero =>
        rw [Nat.add_zero]
        rw [hpres i (by omega)]
        rw [show ((⟨s.fields.set i (StructField.mk n (s.fields.get ⟨i, hif⟩).dataType
            (s.fields.get ⟨i, hif⟩).nullable), s.names.set i n⟩ :
              StructType)).fields = s.fields.set i (StructField.mk n
              (s.fields.get ⟨i, hif⟩).dataType (s.fields.get ⟨i, hif⟩).nullable) from rfl]
        rw [List.getElem?_set_self hif]
        simp
      | succ jj =>
        have hh := hren jj (by simpa using hj)
        rw [show i + (jj + 1) = (i + 1) + jj by omega]
        simpa using hh

/-- C10: every schema produced by `_inferSchemaFromList` keeps
`names` and `fields` in lock-step, and the positional rename loop
applied over such a schema with at most as many names as fields
succeeds, renames the i-th field to the i-th name, and keeps
`fields.length == names.length` with `fields[i].name == names[i]`
afterwards. -/
theorem c10_rename_keeps_lockstep :
    (∀ (data : List Record) (names : Option (List String)) (s : StructType),
      inferSchemaFromList data names = .ok s → s.names = s.fields.map (·.name)) ∧
    (∀ (s : StructType) (cols : List String),
      s.names = s.fields.map (·.name) → cols.length ≤ s.fields.length →
      ∃ s2, renameGo s 0 cols = .ok s2 ∧
        s2.fields.length = s2.names.length ∧
        s2.names = s2.fields.map (·.name) ∧
        s2.fields.length = s.fields.length ∧
        (∀ j, j < cols.length → (s2.fields[j]?).map (·.name) = cols[j]?)) := by
  constructor
  · intro data names s h
    match data with
    | [] => exact absurd h (by simp [inferSchemaFromList])
    | r :: rest =>
      have h2 : (match mergedSchemaOf (r :: rest) names with
          | .error e => Except.error e
          | .ok schema =>
            if hasNulltype schema then Except.error CdfError.indeterminate
            else Except.ok schema) = Except.ok s := h
      cases hms : mergedSchemaOf (r :: rest) names with
      | error e =>
        rw [hms] at h2
        exact absurd h2 (by simp)
      | ok schema =>
        rw [hms] at h2
        have h3 : (if hasNulltype schema = true then
            Except.error CdfError.indeterminate else Except.ok schema) =
            Except.ok s := h2
        by_cases hnull : hasNulltype schema = true
        · rw [if_pos hnull] at h3
          exact absurd h3 (by simp)
        · rw [if_neg hnull] at h3
          injection h3 with h4
          rw [← h4]
          exact mergedSchemaOf_lockstep _ names schema hms
  · intro s cols hlock hle
    obtain ⟨s2, hr, hl2, hlen2, _, hren⟩ :=
      renameGo_spec cols s 0 hlock (by simpa using hle)
    refine ⟨s2, hr, by rw [hl2]; simp, hl2, hlen2, ?_⟩
    intro j hj
    simpa using hren j hj
/-- Witness for C10: the schema inferred from `{"b": 2, "a": 1}` is in
lock-step, and renaming it with `["x","y"]` yields the expected
schema with both lists updated together. -/
theorem c10_witness :
    ((⟨[⟨"a", .longT, true⟩, ⟨"b", .longT, true⟩], ["a", "b"]⟩ : StructType).names =
      ([⟨"a", .longT, true⟩, ⟨"b", .longT, true⟩] : List StructField).map (·.name)) ∧
    renameGo ⟨[⟨"a", .longT, true⟩, ⟨"b", .longT, true⟩], ["a", "b"]⟩ 0 ["x", "y"] =
      .ok ⟨[⟨"x", .longT, true⟩, ⟨"y", .longT, true⟩], ["x", "y"]⟩ := by
  constructor
  · exact c10_rename_keeps_lockstep.1 [.dict [("a", .int 1), ("b", .int 2)]]
      Option.none ⟨[⟨"a", .longT, true⟩, ⟨"b", .longT, true⟩], ["a", "b"]⟩ (by decide)
  · obtain ⟨s2, hr, -, -, -, -⟩ := c10_rename_keeps_lockstep.2
      ⟨[⟨"a", .longT, true⟩, ⟨"b", .longT, true⟩], ["a", "b"]⟩ ["x", "y"]
      (by decide) (by decide)
    have hconc : renameGo ⟨[⟨"a", .longT, true⟩, ⟨"b", .longT, true⟩], ["a", "b"]⟩
        0 ["x", "y"] =
        .ok ⟨[⟨"x", .longT, true⟩, ⟨"y", .longT, true⟩], ["x", "y"]⟩ := by decide
    exact hconc


end SparkConnect
